import Mathlib

/-!
Shallow embedding of the NeonLink script execution subsystem
(`src/neonlink_desktop/services/script_runner.py` and
`src/neonlink_desktop/models/script_model.py`).

The supervisor's sequential behaviour is modelled by explicit state passing:
`ScriptRunnerState` stands for the `ScriptRunner` object (`_running_scripts`
insertion-ordered dict as an association list, `_shutdown_event` as a Bool).
External effects are abstracted into oracle inputs: the outcome of
`asyncio.create_subprocess_exec` becomes a `SpawnOutcome` argument, the
outcome of each `os.kill` call in the termination sequence becomes a
`Nat → KillOutcome` oracle (delivered, `ProcessLookupError`, or an
unexpected `OSError` such as permission denied), and the signals actually
delivered are returned as a list of `(pid, signal-number)` pairs.
-/

namespace NeonLink

/-- Characters Python's `str.split()` / `str.rstrip()` treat as whitespace
(the ASCII ones: space, tab, newline, carriage return, vertical tab, form feed). -/
def isPySpace (c : Char) : Bool :=
  c == ' ' || c == '\t' || c == '\n' || c == '\r' ||
    c == Char.ofNat 11 || c == Char.ofNat 12

/-- Splitting a character list at separators, dropping empty pieces (`cur`
accumulates the current piece in reverse). This is the recursion behind both
Python's `str.split()` with no separator and the path-component split. -/
def splitDropEmpty (p : Char → Bool) (cs cur : List Char) : List (List Char) :=
  match cs with
  | [] => if cur.isEmpty then [] else [cur.reverse]
  | c :: rest =>
      if p c then
        if cur.isEmpty then splitDropEmpty p rest []
        else cur.reverse :: splitDropEmpty p rest []
      else splitDropEmpty p rest (c :: cur)

/-- Python `str.split()` with no separator: split on whitespace runs, dropping
empty pieces. -/
def pySplit (s : String) : List String :=
  (splitDropEmpty isPySpace s.data []).map String.mk

/-- Python `str.rstrip()`: drop trailing whitespace. -/
def pyRstrip (s : String) : String :=
  String.mk ((s.data.reverse.dropWhile isPySpace).reverse)

/-- Python list slicing `l[-n:]`: the last `n` elements (the whole list when
it is shorter than `n`). -/
def pySliceLast (n : Nat) (l : List α) : List α :=
  l.drop (l.length - n)

/-- ASCII lower-casing of a string (Python `str.lower()` for the paths the
runner sees). -/
def strToLower (s : String) : String :=
  String.mk (s.data.map Char.toLower)

/-- The final component of a path (Python `PurePath.name`, for the
forms of path the runner sees). -/
def pathName (p : String) : String :=
  match (splitDropEmpty (fun c => c == '/') p.data []).getLast? with
  | some n => String.mk n
  | none => ""

/-- Index of the last `'.'` in a list of characters, if any. -/
def lastDotIdx (cs : List Char) : Option Nat :=
  ((List.range cs.length).filter (fun i => cs.getD i ' ' == '.')).getLast?

/-- Python `PurePath.suffix`: the extension of the final component; empty when
the only dot is leading (hidden files) or trailing. -/
def pathSuffix (p : String) : String :=
  let name := pathName p
  let cs := name.data
  match lastDotIdx cs with
  | some i => if 0 < i ∧ i < cs.length - 1 then String.mk (cs.drop i) else ""
  | none => ""

/-- Enum `ScriptType` from `script_model.py` (python / bash / powershell). -/
inductive ScriptType where
  | python
  | bash
  | powershell
deriving DecidableEq

/-- Enum `ScriptStatus` from `script_model.py`. -/
inductive ScriptStatus where
  | idle
  | running
  | stopped
  | error
deriving DecidableEq

/-- Model `ScriptModel` from `script_model.py`, restricted to the fields the runner
reads (`id`, `name`, `source_path`, `script_type`, `arguments`; the
`environment` mapping only feeds the spawned process environment, which the
embedding abstracts into the spawn oracle). -/
structure ScriptModel where
  id : String
  name : String
  source_path : String
  script_type : ScriptType
  arguments : String := ""
deriving DecidableEq

/-- Property `ScriptModel.extension`: `source_path.suffix.lower()`. -/
def ScriptModel.extension (s : ScriptModel) : String :=
  strToLower (pathSuffix s.source_path)

/-- Property `ScriptModel.is_python`: extension is `.py` or the declared type is python. -/
def ScriptModel.is_python (s : ScriptModel) : Bool :=
  s.extension == ".py" || s.script_type == .python

/-- Property `ScriptModel.is_bash`: extension is `.sh` or the declared type is bash. -/
def ScriptModel.is_bash (s : ScriptModel) : Bool :=
  s.extension == ".sh" || s.script_type == .bash

/-- Property `ScriptModel.is_powershell`: extension is `.ps1`/`.psm1` or the declared
type is powershell. -/
def ScriptModel.is_powershell (s : ScriptModel) : Bool :=
  s.extension == ".ps1" || s.extension == ".psm1" || s.script_type == .powershell

/-- Record `RunningScript` from `script_model.py` (the RunRecord). `start_time` is a
wall-clock datetime no claim depends on and is omitted. -/
structure RunningScript where
  script : ScriptModel
  status : ScriptStatus := .idle
  pid : Option Nat := none
  exit_code : Option Int := none
  stdout_buffer : List String := []
  stderr_buffer : List String := []
deriving DecidableEq

/-- Lookup in an association list standing for a Python dict. -/
def assocLookup (l : List (String × α)) (k : String) : Option α :=
  match l with
  | [] => none
  | (k', v) :: rest => if k' = k then some v else assocLookup rest k

/-- Insertion into an association list standing for a Python dict: replace in
place on an existing key (dicts preserve insertion order), append otherwise. -/
def assocInsert (l : List (String × α)) (k : String) (v : α) : List (String × α) :=
  match l with
  | [] => [(k, v)]
  | (k', v') :: rest =>
      if k' = k then (k, v) :: rest else (k', v') :: assocInsert rest k v

/-- The mutable state of a `ScriptRunner` object: `_running_scripts` and
`_shutdown_event` (the `_process_locks` dict only serialises the coroutines
and has no effect on the sequential semantics modelled here). -/
structure ScriptRunnerState where
  running_scripts : List (String × RunningScript) := []
  shutdown_event : Bool := false
deriving DecidableEq

/-- Constructor `ScriptRunner.__init__`: empty run table, shutdown flag clear. -/
def initialState : ScriptRunnerState := {}

/-- Method `ScriptRunner._get_powershell_path`: `shutil.which("pwsh")` if found on
the search path (the oracle argument), else the fallback name. -/
def get_powershell_path (pwshWhich : Option String) : String :=
  match pwshWhich with
  | some p => p
  | none => "powershell.exe"

/-- Method `ScriptRunner._build_command`. `sysExecutable` stands for
`sys.executable` and `pwshWhich` for the result of `shutil.which("pwsh")`. -/
def build_command (sysExecutable : String) (pwshWhich : Option String)
    (script : ScriptModel) (arguments : String) : List String :=
  let cmd : List String :=
    if script.is_python then
      [sysExecutable, script.source_path]
    else if script.is_bash then
      ["/bin/bash", script.source_path]
    else if script.is_powershell then
      [get_powershell_path pwshWhich, "-File", script.source_path]
    else
      [script.source_path]
  let cmd := if script.arguments ≠ "" then cmd ++ pySplit script.arguments else cmd
  if arguments ≠ "" then cmd ++ pySplit arguments else cmd

/-- Outcome of the `asyncio.create_subprocess_exec` call, which the embedding
treats as an oracle input to `start_script`: either a pid, or the `OSError`
the source converts into `ScriptExecutionError`. -/
inductive SpawnOutcome where
  | ok (pid : Nat)
  | osError (msg : String)
deriving DecidableEq

/-- The two synchronous failure shapes `ScriptRunner.start_script` raises as
`ScriptExecutionError`: the already-running rejection (message built from the
script's display name) and the spawn failure (message built from the OSError). -/
inductive StartError where
  | alreadyRunning (name : String)
  | spawnFailed (msg : String)
deriving DecidableEq

/-- Method `ScriptRunner.start_script`. The source first rejects when `script.id` is
already a key of `_running_scripts` (whatever the stored record's status),
then builds the command and environment and spawns; on success it stores a
fresh RUNNING record and launches the output pump. Command/env construction
only feeds the spawn, which is abstracted into the `spawn` oracle; `arguments`
is kept as a parameter because it feeds `build_command` in the source. An
exception leaves the state unchanged, so the pair returns the input state on
the error paths. -/
def start_script (st : ScriptRunnerState) (script : ScriptModel)
    (arguments : String) (spawn : SpawnOutcome) :
    Except StartError RunningScript × ScriptRunnerState :=
  if (assocLookup st.running_scripts script.id).isSome then
    (.error (.alreadyRunning script.name), st)
  else
    match spawn with
    | .osError m => (.error (.spawnFailed m), st)
    | .ok pid =>
        let rs : RunningScript :=
          { script := script, status := .running, pid := some pid }
        (.ok rs,
          { st with running_scripts := assocInsert st.running_scripts script.id rs })

/-- Outcome of one `os.kill(pid, sig)` call: the signal was delivered, the
process was gone (`ProcessLookupError`, which the source's inner handlers
swallow), or some other `OSError` was raised (e.g. `PermissionError` on a
recycled pid), which falls through to the source's catch-all
`except Exception` and makes `stop_script` return False. -/
inductive KillOutcome where
  | ok
  | noProcess
  | failed
deriving DecidableEq

/-- Method `ScriptRunner.stop_script` (Unix branch). The termination sequence
is `os.kill(pid, SIGTERM)`, a grace sleep, the existence probe
`os.kill(pid, 0)`, and `os.kill(pid, SIGKILL)`; the three oracles give each
call's outcome for a pid. A `noProcess` outcome is swallowed by the matching
inner `except ProcessLookupError` (the sequence stops and True is returned);
a `failed` outcome propagates to the catch-all `except Exception`, which
logs and returns False. Returns the boolean result, the (unchanged) state —
the source never writes `_running_scripts` here — and the list of
`(pid, signal)` pairs actually delivered. `if not pid` in the source is
false for both `None` and `0`. -/
def stop_script (st : ScriptRunnerState) (script_id : String)
    (killTerm killProbe killKill : Nat → KillOutcome) :
    Bool × ScriptRunnerState × List (Nat × Nat) :=
  match assocLookup st.running_scripts script_id with
  | none => (false, st, [])
  | some rs =>
      match rs.pid with
      | none => (false, st, [])
      | some pid =>
          if pid = 0 then (false, st, [])
          else
            match killTerm pid with
            | .noProcess => (true, st, [])
            | .failed => (false, st, [])
            | .ok =>
                match killProbe pid with
                | .noProcess => (true, st, [(pid, 15)])
                | .failed => (false, st, [(pid, 15)])
                | .ok =>
                    match killKill pid with
                    | .noProcess => (true, st, [(pid, 15), (pid, 0)])
                    | .failed => (false, st, [(pid, 15), (pid, 0)])
                    | .ok => (true, st, [(pid, 15), (pid, 0), (pid, 9)])

/-- Method `ScriptRunner._finalize_script`: looks the record up (no-op when absent),
then sets status from the return code (`STOPPED` exactly on `0`, `ERROR` on
any nonzero or missing code), records the return code as `exit_code`, and
reassigns each buffer to its own last-1000 slice. The `stdout_lines` /
`stderr_lines` parameters are accepted but never consulted, exactly as in the
source. -/
def finalize_script (st : ScriptRunnerState) (script_id : String)
    (return_code : Option Int) (stdout_lines stderr_lines : List String) :
    ScriptRunnerState :=
  match assocLookup st.running_scripts script_id with
  | none => st
  | some rs =>
      let rs' : RunningScript :=
        { rs with
          status := if return_code = some 0 then .stopped else .error
          exit_code := return_code
          stdout_buffer := pySliceLast 1000 rs.stdout_buffer
          stderr_buffer := pySliceLast 1000 rs.stderr_buffer }
      { st with running_scripts := assocInsert st.running_scripts script_id rs' }

/-- Method `ScriptRunner._stream_output`, with the pump's interaction with the child
process abstracted to its observable data: the raw stdout/stderr lines the
process produced (per-stream order preserved) and the final return code. The
source returns early without finalizing when no record is registered;
otherwise each raw line is decoded (`utf-8`, replacement on error — the
embedding models text directly) and right-stripped into the pump's local
`stdout_lines` / `stderr_lines` lists, which are handed to
`finalize_script`. The record's ring buffers are never appended to. -/
def stream_output (st : ScriptRunnerState) (script_id : String)
    (rawStdout rawStderr : List String) (return_code : Option Int) :
    ScriptRunnerState :=
  match assocLookup st.running_scripts script_id with
  | none => st
  | some _ =>
      let stdout_lines := rawStdout.map pyRstrip
      let stderr_lines := rawStderr.map pyRstrip
      finalize_script st script_id return_code stdout_lines stderr_lines

/-- Method `ScriptRunner.get_running_script`. -/
def get_running_script (st : ScriptRunnerState) (script_id : String) :
    Option RunningScript :=
  assocLookup st.running_scripts script_id

/-- Method `ScriptRunner.get_all_running`. -/
def get_all_running (st : ScriptRunnerState) : List RunningScript :=
  st.running_scripts.map Prod.snd

/-- Method `ScriptRunner.shutdown`: set `_shutdown_event`, call `stop_script` on each
key of `_running_scripts` in order (stops never mutate the table, so
iterating over the pre-shutdown keys is exact), then clear the table.
Returns the final state and all signals delivered. -/
def shutdown (st : ScriptRunnerState)
    (killTerm killProbe killKill : Nat → KillOutcome) :
    ScriptRunnerState × List (Nat × Nat) :=
  let st1 : ScriptRunnerState := { st with shutdown_event := true }
  let sigs :=
    (st1.running_scripts.map Prod.fst).foldr
      (fun sid acc =>
        (stop_script st1 sid killTerm killProbe killKill).2.2 ++ acc) []
  ({ st1 with running_scripts := [] }, sigs)

/-- One observable step of the supervisor: a `start_script` call (any spawn
outcome), a completed pump run (`_stream_output` through
`_finalize_script`), a `stop_script` call, or `shutdown`. -/
inductive Step : ScriptRunnerState → ScriptRunnerState → Prop where
  | start (st : ScriptRunnerState) (script : ScriptModel) (arguments : String)
      (spawn : SpawnOutcome) :
      Step st (start_script st script arguments spawn).2
  | pump (st : ScriptRunnerState) (script_id : String)
      (rawStdout rawStderr : List String) (return_code : Option Int) :
      Step st (stream_output st script_id rawStdout rawStderr return_code)
  | stop (st : ScriptRunnerState) (script_id : String)
      (killTerm killProbe killKill : Nat → KillOutcome) :
      Step st (stop_script st script_id killTerm killProbe killKill).2.1
  | shutdownAll (st : ScriptRunnerState)
      (killTerm killProbe killKill : Nat → KillOutcome) :
      Step st (shutdown st killTerm killProbe killKill).1

/-- States reachable from a freshly constructed `ScriptRunner`. -/
inductive Reachable : ScriptRunnerState → Prop where
  | init : Reachable initialState
  | step {st st' : ScriptRunnerState} :
      Reachable st → Step st st' → Reachable st'

/-- Splitting the empty string on whitespace yields no tokens, matching
Python. -/
theorem pySplit_empty : pySplit "" = [] := by decide

/-- The argument guards in `build_command` are redundant: appending the split
of an empty string is the identity. -/
theorem append_pySplit_guard (l : List String) (s : String) :
    (if s ≠ "" then l ++ pySplit s else l) = l ++ pySplit s := by
  by_cases h : s = ""
  · subst h; simp [pySplit_empty]
  · simp [h]

/-- Every valid `ScriptModel` satisfies one of the three interpreter
predicates, because `script_type` ranges over exactly those three kinds. -/
theorem interpreter_kind_total (m : ScriptModel) :
    m.is_python = true ∨ m.is_bash = true ∨ m.is_powershell = true := by
  cases h : m.script_type
  · left
    simp [ScriptModel.is_python, h]
  · right; left
    simp [ScriptModel.is_bash, h]
  · right; right
    simp [ScriptModel.is_powershell, h]

/-- Closed form of `build_command`: the interpreter head (with the `-File`
flag in the powershell case) followed by the whitespace-split definition
arguments and extra arguments; the direct-execution fallback is unreachable
because the three interpreter predicates are exhaustive. -/
theorem build_command_unfolded (sysExecutable : String) (pwshWhich : Option String)
    (script : ScriptModel) (arguments : String) :
    build_command sysExecutable pwshWhich script arguments =
      (if script.is_python then [sysExecutable, script.source_path]
       else if script.is_bash then ["/bin/bash", script.source_path]
       else [get_powershell_path pwshWhich, "-File", script.source_path])
      ++ pySplit script.arguments ++ pySplit arguments := by
  unfold build_command
  rw [append_pySplit_guard, append_pySplit_guard]
  rcases interpreter_kind_total script with h | h | h
  · simp [h]
  · by_cases hp : script.is_python <;> simp [hp, h]
  · by_cases hp : script.is_python <;> by_cases hb : script.is_bash <;>
      simp [hp, hb, h]

/-- Looking a key up after an insert: the inserted value on the inserted key,
the old table elsewhere. -/
theorem assocLookup_insert (l : List (String × α)) (k k' : String) (v : α) :
    assocLookup (assocInsert l k v) k' =
      if k = k' then some v else assocLookup l k' := by
  induction l with
  | nil =>
      simp only [assocInsert, assocLookup]
  | cons hd tl ih =>
      obtain ⟨k0, v0⟩ := hd
      by_cases h0 : k0 = k
      · subst h0
        simp only [assocInsert, if_pos rfl, assocLookup]
        by_cases h1 : k0 = k' <;> simp [h1]
      · simp only [assocInsert, if_neg h0, assocLookup, ih]
        by_cases h1 : k0 = k'
        · have h2 : ¬ k = k' := fun h => h0 (h1.trans h.symm)
          rw [if_pos h1, if_neg h2, if_pos h1]
        · by_cases h2 : k = k' <;> simp [h1, h2]

/-- A pointwise property of stored records survives an insert whose new value
also satisfies it. -/
theorem assoc_forall_insert {P : α → Prop} (l : List (String × α)) (k : String)
    (v : α) (hl : ∀ k' v', assocLookup l k' = some v' → P v') (hv : P v) :
    ∀ k' v', assocLookup (assocInsert l k v) k' = some v' → P v' := by
  intro k' v' h
  rw [assocLookup_insert] at h
  by_cases hk : k = k'
  · rw [if_pos hk] at h
    cases h
    exact hv
  · rw [if_neg hk] at h
    exact hl k' v' h

/-- Stopping never writes the run table or the shutdown flag: every branch of
`stop_script` returns the input state. -/
theorem stop_script_state_eq (st : ScriptRunnerState) (sid : String)
    (killTerm killProbe killKill : Nat → KillOutcome) :
    (stop_script st sid killTerm killProbe killKill).2.1 = st := by
  unfold stop_script
  repeat' split <;> try rfl

/-- Invariant: every stored record with a non-null exit code has terminal
status (Stopped or Errored). -/
def ExitCodeStatusInv (st : ScriptRunnerState) : Prop :=
  ∀ sid rs, assocLookup st.running_scripts sid = some rs →
    rs.exit_code ≠ none → (rs.status = .stopped ∨ rs.status = .error)

/-- Starting a script preserves the exit-code/status invariant: the record it
inserts is Running with a null exit code. -/
theorem start_script_preserves_inv (st : ScriptRunnerState) (script : ScriptModel)
    (arguments : String) (spawn : SpawnOutcome) (h : ExitCodeStatusInv st) :
    ExitCodeStatusInv (start_script st script arguments spawn).2 := by
  unfold start_script
  by_cases hfound : (assocLookup st.running_scripts script.id).isSome = true
  · rw [if_pos hfound]
    exact h
  · rw [if_neg hfound]
    cases spawn with
    | osError m => exact h
    | ok pid =>
        intro sid rs hlk hne
        have h' : assocLookup (assocInsert st.running_scripts script.id
            { script := script, status := .running, pid := some pid }) sid
            = some rs := hlk
        rw [assocLookup_insert] at h'
        by_cases hk : script.id = sid
        · rw [if_pos hk] at h'
          cases h'
          exact absurd rfl hne
        · rw [if_neg hk] at h'
          exact h sid rs h' hne

/-- Finalization preserves the exit-code/status invariant: the record it
writes back always has terminal status. -/
theorem finalize_script_preserves_inv (st : ScriptRunnerState) (sid : String)
    (rc : Option Int) (outs errs : List String) (h : ExitCodeStatusInv st) :
    ExitCodeStatusInv (finalize_script st sid rc outs errs) := by
  unfold finalize_script
  cases hl : assocLookup st.running_scripts sid with
  | none => exact h
  | some rs0 =>
      intro sid' rs' h' hne
      have h'' : assocLookup (assocInsert st.running_scripts sid
          { rs0 with
            status := if rc = some 0 then .stopped else .error
            exit_code := rc
            stdout_buffer := pySliceLast 1000 rs0.stdout_buffer
            stderr_buffer := pySliceLast 1000 rs0.stderr_buffer }) sid'
          = some rs' := h'
      rw [assocLookup_insert] at h''
      by_cases hk : sid = sid'
      · rw [if_pos hk] at h''
        cases h''
        by_cases h0 : rc = some 0
        · left
          simp [h0]
        · right
          simp [h0]
      · rw [if_neg hk] at h''
        exact h sid' rs' h'' hne

/-- The pump preserves the exit-code/status invariant. -/
theorem stream_output_preserves_inv (st : ScriptRunnerState) (script_id : String)
    (rawStdout rawStderr : List String) (rc : Option Int)
    (h : ExitCodeStatusInv st) :
    ExitCodeStatusInv (stream_output st script_id rawStdout rawStderr rc) := by
  unfold stream_output
  cases hl : assocLookup st.running_scripts script_id with
  | none => exact h
  | some rs0 =>
      exact finalize_script_preserves_inv st script_id rc
        (rawStdout.map pyRstrip) (rawStderr.map pyRstrip) h

/-- After shutdown the table is empty, so the invariant holds vacuously. -/
theorem shutdown_preserves_inv (st : ScriptRunnerState)
    (killTerm killProbe killKill : Nat → KillOutcome) :
    ExitCodeStatusInv (shutdown st killTerm killProbe killKill).1 := by
  intro sid rs h
  exact Option.noConfusion h

/-! ### Concrete scenario states used by the claim theorems -/

/-- A python demo script, identity `s1`. -/
def demoScript : ScriptModel :=
  { id := "s1", name := "demo", source_path := "/tmp/demo.py",
    script_type := .python }

/-- A record for `demoScript` in status Running with pid 3. -/
def demoRunningRecord : RunningScript :=
  { script := demoScript, status := .running, pid := some 3 }

/-- A run table holding the Running record for `s1`. -/
def demoRunningState : ScriptRunnerState :=
  { running_scripts := [("s1", demoRunningRecord)] }

/-- State after starting `demoScript` on a fresh runner (spawn gave pid 11). -/
def helloStart : ScriptRunnerState :=
  (start_script initialState demoScript "" (.ok 11)).2

/-- State after the started process printed one stdout line `hello` and
exited with code 0, and the pump finalized the run. -/
def helloDone : ScriptRunnerState :=
  stream_output helloStart "s1" ["hello\n"] [] (some 0)

/-- The record the `hello` run ends with: Stopped, exit code 0, and — the
defect under test — empty buffers. -/
def helloFinalRecord : RunningScript :=
  { script := demoScript, status := .stopped, pid := some 11,
    exit_code := some 0 }

/-- State after the started process was finalized with a missing return code
(the pump's error path). -/
def noneFinalized : ScriptRunnerState :=
  stream_output helloStart "s1" [] [] none

/-- The record `noneFinalized` holds: Errored with a null exit code. -/
def errNoneRecord : RunningScript :=
  { script := demoScript, status := .error, pid := some 11, exit_code := none }

/-- 1001 stdout lines, one over the hard-coded buffer cap of 1000. -/
def manyLines : List String := List.replicate 1001 "x"

/-- State after a run that produced 1001 stdout lines and exited 0. -/
def overflowDone : ScriptRunnerState :=
  stream_output helloStart "s1" manyLines [] (some 0)

/-- State after `shutdown` was called on `demoRunningState`. -/
def afterShutdown : ScriptRunnerState :=
  (shutdown demoRunningState (fun _ => .ok) (fun _ => .noProcess) (fun _ => .ok)).1

/-- A powershell script with a `.ps1` source path. -/
def psScript : ScriptModel :=
  { id := "p1", name := "ps", source_path := "/tmp/t.ps1",
    script_type := .powershell }

/-- A script with a `.py` source path but declared type bash. -/
def pyDeclaredBash : ScriptModel :=
  { id := "c10a", name := "pyb", source_path := "/tmp/a.py",
    script_type := .bash }

/-- A script with a `.sh` source path but declared type powershell. -/
def shDeclaredPwsh : ScriptModel :=
  { id := "c10b", name := "shp", source_path := "/tmp/b.sh",
    script_type := .powershell }

/-! ### Claim theorems -/

/-- C1: while a record for a script identity is present — in particular a
Running one — `start_script` fails with the AlreadyRunning error and returns
the run table unchanged, so no second RunRecord is created for that
identity. -/
theorem start_rejects_running_duplicate (st : ScriptRunnerState)
    (script : ScriptModel) (arguments : String) (spawn : SpawnOutcome)
    (rs : RunningScript)
    (hfound : assocLookup st.running_scripts script.id = some rs)
    (hrunning : rs.status = .running) :
    start_script st script arguments spawn =
      (.error (.alreadyRunning script.name), st) := by
  unfold start_script
  rw [hfound]
  rfl

/-- Witness for C1 at a concrete one-entry run table holding a Running
record. -/
theorem start_rejects_running_duplicate_witness :
    assocLookup demoRunningState.running_scripts demoScript.id =
      some demoRunningRecord ∧
    demoRunningRecord.status = .running ∧
    start_script demoRunningState demoScript "" (.ok 4) =
      (.error (.alreadyRunning demoScript.name), demoRunningState) :=
  ⟨by decide, by decide,
    start_rejects_running_duplicate demoRunningState demoScript "" (.ok 4)
      demoRunningRecord (by decide) (by decide)⟩

/-- C2: finalizing a run whose record is registered sets status Stopped
exactly on exit code 0, Errored on any nonzero or missing code, and records
the reported code as the record's exit code. -/
theorem finalize_status_and_exit_code (st : ScriptRunnerState) (sid : String)
    (rc : Option Int) (outs errs : List String) (rs : RunningScript)
    (hfound : assocLookup st.running_scripts sid = some rs) :
    ∃ rs',
      assocLookup (finalize_script st sid rc outs errs).running_scripts sid =
        some rs' ∧
      rs'.exit_code = rc ∧
      (rc = some 0 → rs'.status = .stopped) ∧
      (∀ n : Int, rc = some n → n ≠ 0 → rs'.status = .error) ∧
      (rc = none → rs'.status = .error) := by
  unfold finalize_script
  rw [hfound]
  refine ⟨_, (assocLookup_insert _ _ _ _).trans (if_pos rfl), rfl, ?_, ?_, ?_⟩
  · intro h0
    simp [h0]
  · intro n hn hne
    simp [hn, hne]
  · intro h0
    simp [h0]

/-- Witness for C2: finalizing the concrete Running record with exit code 0. -/
theorem finalize_status_and_exit_code_witness :
    ∃ rs',
      assocLookup
          (finalize_script demoRunningState "s1" (some 0) ["a"] []).running_scripts
          "s1" = some rs' ∧
      rs'.exit_code = some 0 ∧
      ((some 0 : Option Int) = some 0 → rs'.status = .stopped) ∧
      (∀ n : Int, (some 0 : Option Int) = some n → n ≠ 0 → rs'.status = .error) ∧
      ((some 0 : Option Int) = none → rs'.status = .error) :=
  finalize_status_and_exit_code demoRunningState "s1" (some 0) ["a"] []
    demoRunningRecord (by decide)

/-- C3 (code bug): the `hello` scenario — start, one stdout line `hello`,
exit 0. The final record is Stopped with exit code 0, but its stdout buffer
is empty rather than `["hello"]`: the pump's captured lines are passed to
finalization and discarded there, never reaching the record's buffer. -/
theorem hello_scenario_buffer_left_empty :
    get_running_script helloDone "s1" = some helloFinalRecord ∧
    helloFinalRecord.status = .stopped ∧
    helloFinalRecord.exit_code = some 0 ∧
    helloFinalRecord.stdout_buffer = [] ∧
    helloFinalRecord.stdout_buffer ≠ ["hello"] :=
  ⟨by decide, rfl, rfl, rfl, by decide⟩

/-- C4 (code bug): restart after a terminal run — the finished record for
`s1` (status Stopped) is still in the run table, so a new `start_script` for
the same identity is rejected with the AlreadyRunning error instead of
replacing the old record with a fresh run. -/
theorem restart_after_terminal_rejected :
    Option.map RunningScript.status (get_running_script helloDone "s1") =
      some .stopped ∧
    start_script helloDone demoScript "" (.ok 12) =
      (.error (.alreadyRunning "demo"), helloDone) :=
  ⟨by decide, rfl⟩

/-- C5 counterexample: the finished (Stopped) record for `s1` is still in the
table with its pid, so `stop_script` initiates its termination sequence and
returns true — not false — for an already-stopped script identity (here the
process behind the stale pid is already gone, so the SIGTERM attempt raises
`ProcessLookupError`, which the source swallows before returning True). -/
theorem stop_returns_true_for_stopped_record :
    Option.map RunningScript.status (get_running_script helloDone "s1") =
      some .stopped ∧
    (stop_script helloDone "s1" (fun _ => .noProcess) (fun _ => .noProcess)
        (fun _ => .noProcess)).1 = true :=
  ⟨by decide, by decide⟩

/-- The termination sequence completes without hitting the catch-all
`except Exception`: no `os.kill` call that is actually reached raises an
unexpected error (a `ProcessLookupError` outcome is fine — it is swallowed
and ends the sequence early). -/
def killSequenceOk (killTerm killProbe killKill : Nat → KillOutcome)
    (pid : Nat) : Prop :=
  killTerm pid ≠ .failed ∧
  (killTerm pid = .ok →
    killProbe pid ≠ .failed ∧ (killProbe pid = .ok → killKill pid ≠ .failed))

/-- C5 amended: `stop_script` never mutates the registry; for an identity
unknown to the run table it returns false without error and with no signal
sent; and it returns true iff the identity has a record in the table carrying
a nonzero pid — whatever that record's status, Running or already terminal —
and the termination sequence it then initiates completes without an
unexpected OS error (the source's catch-all turns such an error, e.g.
permission denied on a recycled pid, into a false return). -/
theorem stop_script_behavior (st : ScriptRunnerState) (sid : String)
    (killTerm killProbe killKill : Nat → KillOutcome) :
    (stop_script st sid killTerm killProbe killKill).2.1 = st ∧
    (assocLookup st.running_scripts sid = none →
      stop_script st sid killTerm killProbe killKill = (false, st, [])) ∧
    ((stop_script st sid killTerm killProbe killKill).1 = true ↔
      ∃ rs p, assocLookup st.running_scripts sid = some rs ∧
        rs.pid = some p ∧ p ≠ 0 ∧
        killSequenceOk killTerm killProbe killKill p) := by
  unfold stop_script
  cases h : assocLookup st.running_scripts sid with
  | none => simp [h]
  | some rs =>
      cases hp : rs.pid with
      | none => simp [h, hp]
      | some pid =>
          by_cases h0 : pid = 0
          · subst h0
            simp [h, hp]
          · cases h1 : killTerm pid <;> cases h2 : killProbe pid <;>
              cases h3 : killKill pid <;>
              simp [h, hp, h0, h1, h2, h3, killSequenceOk]

/-- Witness for C5 amended at the concrete Running-record table. -/
theorem stop_script_behavior_witness :
    (stop_script demoRunningState "s1" (fun _ => .ok) (fun _ => .ok)
        (fun _ => .ok)).2.1 = demoRunningState ∧
    (assocLookup demoRunningState.running_scripts "s1" = none →
      stop_script demoRunningState "s1" (fun _ => .ok) (fun _ => .ok)
          (fun _ => .ok) = (false, demoRunningState, [])) ∧
    ((stop_script demoRunningState "s1" (fun _ => .ok) (fun _ => .ok)
        (fun _ => .ok)).1 = true ↔
      ∃ rs p, assocLookup demoRunningState.running_scripts "s1" = some rs ∧
        rs.pid = some p ∧ p ≠ 0 ∧
        killSequenceOk (fun _ => .ok) (fun _ => .ok) (fun _ => .ok) p) :=
  stop_script_behavior demoRunningState "s1" (fun _ => .ok) (fun _ => .ok)
    (fun _ => .ok)

/-- C6 counterexample: after `shutdown` the registry is empty and the
shutdown flag is set, yet a new `start_script` call is not rejected — it
succeeds and registers a fresh Running record, because `start_script` never
consults the flag. -/
theorem start_after_shutdown_succeeds :
    afterShutdown.shutdown_event = true ∧
    (start_script afterShutdown demoScript "" (.ok 9)).1 =
      .ok { script := demoScript, status := .running, pid := some 9 } ∧
    get_running_script (start_script afterShutdown demoScript "" (.ok 9)).2 "s1" =
      some { script := demoScript, status := .running, pid := some 9 } :=
  ⟨by decide, rfl, by decide⟩

/-- C6 amended: `shutdown` leaves the run table with zero records of any
status and sets the shutdown flag; but since `start_script` never reads the
flag, any subsequent start with a successful spawn succeeds and creates a new
RunRecord rather than being rejected. -/
theorem shutdown_clears_but_start_unchecked (st : ScriptRunnerState)
    (killTerm killProbe killKill : Nat → KillOutcome) :
    (shutdown st killTerm killProbe killKill).1.running_scripts = [] ∧
    (shutdown st killTerm killProbe killKill).1.shutdown_event = true ∧
    ∀ (script : ScriptModel) (arguments : String) (pid : Nat),
      start_script (shutdown st killTerm killProbe killKill).1 script arguments
          (.ok pid) =
        (.ok { script := script, status := .running, pid := some pid },
          { running_scripts :=
              [(script.id, { script := script, status := .running, pid := some pid })],
            shutdown_event := true }) := by
  exact ⟨rfl, rfl, fun script arguments pid => rfl⟩

/-- Witness for C6 amended at the concrete Running-record table. -/
theorem shutdown_clears_but_start_unchecked_witness :
    (shutdown demoRunningState (fun _ => .ok) (fun _ => .noProcess)
        (fun _ => .ok)).1.running_scripts = [] ∧
    (shutdown demoRunningState (fun _ => .ok) (fun _ => .noProcess)
        (fun _ => .ok)).1.shutdown_event = true ∧
    ∀ (script : ScriptModel) (arguments : String) (pid : Nat),
      start_script
          (shutdown demoRunningState (fun _ => .ok) (fun _ => .noProcess)
            (fun _ => .ok)).1
          script arguments (.ok pid) =
        (.ok { script := script, status := .running, pid := some pid },
          { running_scripts :=
              [(script.id, { script := script, status := .running, pid := some pid })],
            shutdown_event := true }) :=
  shutdown_clears_but_start_unchecked demoRunningState (fun _ => .ok)
    (fun _ => .noProcess) (fun _ => .ok)

/-- C7 counterexample: a run started and then finalized with a missing return
code is a reachable state whose record is Errored with a null exit code,
refuting the claimed iff between a set exit code and terminal status. -/
theorem errored_record_with_null_exit_code :
    get_running_script noneFinalized "s1" = some errNoneRecord ∧
    errNoneRecord.status = .error ∧
    errNoneRecord.exit_code = none ∧
    ¬ (errNoneRecord.exit_code ≠ none ↔
        (errNoneRecord.status = .stopped ∨ errNoneRecord.status = .error)) ∧
    Reachable noneFinalized := by
  refine ⟨by decide, rfl, rfl, by decide, ?_⟩
  exact Reachable.step
    (Reachable.step Reachable.init (Step.start initialState demoScript "" (.ok 11)))
    (Step.pump helloStart "s1" [] [] none)

/-- C7 amended: in every reachable supervisor state, a record's exit code is
set only if its status is terminal (Stopped or Errored); the converse
direction of the claimed iff fails, since finalization with a missing return
code yields an Errored record whose exit code stays null. -/
theorem exit_code_set_implies_terminal (st : ScriptRunnerState)
    (hreach : Reachable st) : ExitCodeStatusInv st := by
  induction hreach with
  | init =>
      intro sid rs h
      exact Option.noConfusion h
  | step hr hstep ih =>
      cases hstep with
      | start script arguments spawn =>
          exact start_script_preserves_inv _ script arguments spawn ih
      | pump script_id rawStdout rawStderr return_code =>
          exact stream_output_preserves_inv _ script_id rawStdout rawStderr
            return_code ih
      | stop script_id killTerm killProbe killKill =>
          rw [stop_script_state_eq]
          exact ih
      | shutdownAll killTerm killProbe killKill =>
          exact shutdown_preserves_inv _ killTerm killProbe killKill

/-- Witness for C7 amended, applied at the initial state. -/
theorem exit_code_set_implies_terminal_witness : ExitCodeStatusInv initialState :=
  exit_code_set_implies_terminal initialState Reachable.init

set_option maxRecDepth 100000 in
/-- C8 (code bug): a run producing 1001 stdout lines, one over the hard-coded
cap of 1000. The claim expects the record's buffer to hold the most recent
1000 lines in production order; instead it holds nothing, because the pump's
captured lines never reach the record's buffer and the only cap enforcement
is the final truncation of that (still empty) buffer. -/
theorem overflow_lines_never_reach_buffer :
    manyLines.length = 1001 ∧
    Option.map RunningScript.status (get_running_script overflowDone "s1") =
      some .stopped ∧
    Option.map RunningScript.stdout_buffer (get_running_script overflowDone "s1") =
      some [] ∧
    some ([] : List String) ≠ some (pySliceLast 1000 manyLines) :=
  ⟨by decide, by decide, by decide, by decide⟩

/-- C9 counterexample: for a powershell script the built argv places a
`-File` token between the executable and the script path, so the claimed
shape `[executable, scriptPath, ...]` does not hold for that interpreter
kind. -/
theorem powershell_argv_has_file_flag :
    build_command "/usr/bin/python3" (some "/usr/bin/pwsh") psScript "" =
      ["/usr/bin/pwsh", "-File", "/tmp/t.ps1"] ∧
    build_command "/usr/bin/python3" (some "/usr/bin/pwsh") psScript "" ≠
      ["/usr/bin/pwsh", "/tmp/t.ps1"] :=
  ⟨by decide, by decide⟩

/-- C9 amended: argv is the interpreter head followed by the
whitespace-split definition arguments and extra arguments — `[executable,
scriptPath]` for python and bash, but with a `-File` token inserted between
executable and script path for powershell; the bare-path direct-execution
branch is unreachable since the three interpreter predicates cover every
`script_type`. -/
theorem build_command_argv_shape (sysExecutable : String)
    (pwshWhich : Option String) (script : ScriptModel) (arguments : String) :
    build_command sysExecutable pwshWhich script arguments =
      (if script.is_python then [sysExecutable, script.source_path]
       else if script.is_bash then ["/bin/bash", script.source_path]
       else [get_powershell_path pwshWhich, "-File", script.source_path])
      ++ pySplit script.arguments ++ pySplit arguments :=
  build_command_unfolded sysExecutable pwshWhich script arguments

/-- Witness for C9 amended at the concrete powershell script. -/
theorem build_command_argv_shape_witness :
    build_command "/usr/bin/python3" (some "/usr/bin/pwsh") psScript "-v" =
      (if psScript.is_python then ["/usr/bin/python3", psScript.source_path]
       else if psScript.is_bash then ["/bin/bash", psScript.source_path]
       else [get_powershell_path (some "/usr/bin/pwsh"), "-File",
         psScript.source_path])
      ++ pySplit psScript.arguments ++ pySplit "-v" :=
  build_command_argv_shape "/usr/bin/python3" (some "/usr/bin/pwsh") psScript "-v"

/-- C10: the extension-based checks run in python/bash/powershell order
before the declared type alone decides, so a `.py` source path selects the
python interpreter whatever the declared `script_type`, and a `.sh` source
path declared powershell is still run with `/bin/bash`. -/
theorem extension_beats_declared_type (exe : String) (pw : Option String)
    (m : ScriptModel) (extra : String) :
    (m.extension = ".py" →
      build_command exe pw m extra =
        [exe, m.source_path] ++ pySplit m.arguments ++ pySplit extra) ∧
    (m.extension = ".sh" → m.script_type = .powershell →
      build_command exe pw m extra =
        ["/bin/bash", m.source_path] ++ pySplit m.arguments ++ pySplit extra) := by
  constructor
  · intro hpy
    have hp : m.is_python = true := by
      simp [ScriptModel.is_python, hpy]
    rw [build_command_unfolded, if_pos hp]
  · intro hsh hps
    have hp : m.is_python = false := by
      simp only [ScriptModel.is_python, hsh, hps]
      decide
    have hp' : ¬ (m.is_python = true) := by
      simp [hp]
    have hb : m.is_bash = true := by
      simp [ScriptModel.is_bash, hsh]
    rw [build_command_unfolded, if_neg hp', if_pos hb]

/-- Witness for C10: a `.py` path declared bash still gets the python
executable, and a `.sh` path declared powershell still gets `/bin/bash`. -/
theorem extension_beats_declared_type_witness :
    build_command "/usr/bin/python3" none pyDeclaredBash "" =
      ["/usr/bin/python3", pyDeclaredBash.source_path]
        ++ pySplit pyDeclaredBash.arguments ++ pySplit "" ∧
    build_command "/usr/bin/python3" none shDeclaredPwsh "" =
      ["/bin/bash", shDeclaredPwsh.source_path]
        ++ pySplit shDeclaredPwsh.arguments ++ pySplit "" :=
  ⟨(extension_beats_declared_type "/usr/bin/python3" none pyDeclaredBash "").1
      (by decide),
    (extension_beats_declared_type "/usr/bin/python3" none shDeclaredPwsh "").2
      (by decide) (by decide)⟩

end NeonLink
